import Mathlib

/-!
# Verification of the PhilPSX rasterization and DMA-arbiter headers

Shallow embedding of the per-pixel logic of the GLSL fragment shaders in
`src/headers/ogl_shaders/` (ShadedPolygon_FragmentShader1, GP0_80_FragmentShader2,
and the two vertex shaders) and of the public API surface declared by
`src/headers/DMAArbiter.h`, together with theorems settling the specification's
claims about them.

Pixels travel through the shaders as `uvec4` values backed by an `rgba8ui`
image, so each channel is an unsigned 8-bit quantity; the shaders cast to
signed `int` for the dither and blend arithmetic.  We model unsigned channel
values as `Nat` and the signed intermediate arithmetic as `Int`, mirroring the
casts in the GLSL source.
-/

namespace PhilPSX

/-- A texel of an `rgba8ui` image: four unsigned channels.  In VRAM usage the
`r`, `g`, `b` channels hold 5-bit colour values and `a` holds the mask bit. -/
structure Pixel where
  r : Nat
  g : Nat
  b : Nat
  a : Nat
  deriving DecidableEq, Repr

/-- The uniforms of `ShadedPolygon_FragmentShader1` controlling the draw
process (locations 5–13 in the GLSL source). -/
structure DrawUniforms where
  dither : Int
  semiTransparencyEnabled : Int
  semiTransparencyMode : Int
  setMask : Int
  checkMask : Int
  drawTopLeftX : Int
  drawTopLeftY : Int
  drawBottomRightX : Int
  drawBottomRightY : Int
  deriving DecidableEq, Repr

/-- The 4×4 signed dither offset array exactly as initialised in
`ShadedPolygon_FragmentShader1.h` (`ditherArray[column][row]`). -/
def ditherArray (column row : Nat) : Int :=
  match column, row with
  | 0, 0 => -4
  | 0, 1 => 2
  | 0, 2 => -3
  | 0, 3 => 3
  | 1, 0 => 0
  | 1, 1 => -2
  | 1, 2 => 1
  | 1, 3 => -1
  | 2, 0 => -3
  | 2, 1 => 3
  | 2, 2 => -4
  | 2, 3 => 2
  | 3, 0 => 1
  | 3, 1 => -1
  | 3, 2 => 0
  | 3, 3 => -2
  | _, _ => 0

/-- The dither offset selected for fragment coordinate `(x, y)`:
`ditherColumn = x % 4`, `ditherRow = (511 - y) % 4` in the shader source. -/
def ditherOffset (x y : Nat) : Int :=
  ditherArray (x % 4) ((511 - y) % 4)

/-- The `[0, 0xFF]` clamp applied to each dithered channel in the shader. -/
def clamp255 (v : Int) : Int :=
  if v < 0 then 0 else if v > 0xFF then 0xFF else v

/-- One channel through the dither block: add the signed offset for `(x, y)`
and clamp to `[0, 0xFF]`, returning to the unsigned domain. -/
def ditherChannel (x y c : Nat) : Nat :=
  (clamp255 ((c : Int) + ditherOffset x y)).toNat

/-- The 8-bit to 5-bit quantization: `texPixel.r = texPixel.r >> 3` followed by
`if (texPixel.r > 0x1F) texPixel.r = 0x1F` (unsigned arithmetic). -/
def quantize5 (c : Nat) : Nat :=
  if c >>> 3 > 0x1F then 0x1F else c >>> 3

/-- The semi-transparency blend switch of the shader, on signed ints: `b` is
the existing VRAM (back) channel, `f` the incoming (front) channel.  Division
is the C/GLSL truncating division; all operands here are non-negative, where it
agrees with `Int.tdiv`.  A mode outside 0–3 falls through the `switch` leaving
the front value unchanged. -/
def blendChannel (mode b f : Int) : Int :=
  if mode = 0 then Int.tdiv b 2 + Int.tdiv f 2
  else if mode = 1 then b + f
  else if mode = 2 then b - f
  else if mode = 3 then b + Int.tdiv f 4
  else f

/-- The `[0, 31]` saturation applied after the blend switch. -/
def saturate31 (v : Int) : Int :=
  if v < 0 then 0 else if v > 31 then 31 else v

/-- `inDrawingArea` from `ShadedPolygon_FragmentShader1.h`: the fragment
coordinate (non-negative, from `gl_FragCoord`) is tested against the four
drawing-area uniforms with inclusive comparisons. -/
def inDrawingArea (u : DrawUniforms) (x y : Nat) : Bool :=
  decide ((x : Int) ≥ u.drawTopLeftX) && decide ((x : Int) ≤ u.drawBottomRightX) &&
    decide ((y : Int) ≤ u.drawTopLeftY) && decide ((y : Int) ≥ u.drawBottomRightY)

/-- The pixel value `texPixel` built by the body of
`ShadedPolygon_FragmentShader1`'s `main` just before the store decision:
colour intake, optional dither, quantization, optional semi-transparency blend
against the existing VRAM pixel, and optional mask-bit set.  `cr`, `cg`, `cb`
are the integer parts of `interpolated_colour`. -/
def shadedPolygonTexPixel (u : DrawUniforms) (x y cr cg cb : Nat)
    (vramPixel : Pixel) : Pixel :=
  let r0 := if u.dither = 1 then ditherChannel x y cr else cr
  let g0 := if u.dither = 1 then ditherChannel x y cg else cg
  let b0 := if u.dither = 1 then ditherChannel x y cb else cb
  let r1 := quantize5 r0
  let g1 := quantize5 g0
  let b1 := quantize5 b0
  let r2 := if u.semiTransparencyEnabled = 1 then
      (saturate31 (blendChannel u.semiTransparencyMode (vramPixel.r : Int) (r1 : Int))).toNat
    else r1
  let g2 := if u.semiTransparencyEnabled = 1 then
      (saturate31 (blendChannel u.semiTransparencyMode (vramPixel.g : Int) (g1 : Int))).toNat
    else g1
  let b2 := if u.semiTransparencyEnabled = 1 then
      (saturate31 (blendChannel u.semiTransparencyMode (vramPixel.b : Int) (b1 : Int))).toNat
    else b1
  let a2 := if u.setMask = 1 then 1 else 0
  ⟨r2, g2, b2, a2⟩

/-- The full effect of `ShadedPolygon_FragmentShader1`'s `main` on the VRAM
pixel at fragment coordinate `(x, y)`: the returned pixel is the content of
that VRAM cell after the shader ran (`imageStore` happened or not per the
mask-check and drawing-area tests). -/
def shadedPolygonFS (u : DrawUniforms) (x y cr cg cb : Nat)
    (vramPixel : Pixel) : Pixel :=
  let texPixel := shadedPolygonTexPixel u x y cr cg cb vramPixel
  let inArea := inDrawingArea u x y
  if u.checkMask = 1 then
    if vramPixel.a ≠ 1 ∧ inArea = true then texPixel else vramPixel
  else
    if inArea = true then texPixel else vramPixel

/-- The mask-bit application of `GP0_80_FragmentShader2`: a copy of the temp
draw pixel with the mask bit forced when `setMask == 1`. -/
def gp080TexPixel (setMask : Int) (tempDrawPixel : Pixel) : Pixel :=
  if setMask = 1 then ⟨tempDrawPixel.r, tempDrawPixel.g, tempDrawPixel.b, 1⟩
  else tempDrawPixel

/-- The full effect of `GP0_80_FragmentShader2`'s `main` on the VRAM pixel at
the fragment coordinate: `tempDrawPixel` is the transferred pixel loaded from
the temp draw texture; the result is the VRAM cell's content after the shader
ran.  The store is guarded only by the mask check — the shader performs no
drawing-area test. -/
def gp080FS (setMask checkMask : Int) (tempDrawPixel vramPixel : Pixel) : Pixel :=
  let texPixel := gp080TexPixel setMask tempDrawPixel
  if checkMask = 1 then
    if vramPixel.a ≠ 1 then texPixel else vramPixel
  else
    texPixel

/-- The vertex positions emitted by `GP0_A0_VertexShader1` for
`gl_VertexID` 0–3, as exact `(x, y, z, w)` integer quadruples (every
component in the source is one of `-1.0`, `0.0`, `1.0`). -/
def gp0A0VertexPosition : Fin 4 → Int × Int × Int × Int
  | 0 => (-1, -1, 0, 1)
  | 1 => (-1, 1, 0, 1)
  | 2 => (1, -1, 0, 1)
  | 3 => (1, 1, 0, 1)

/-- The vertex positions emitted by `MonochromeRectangle_VertexShader1` for
`gl_VertexID` 0–3. -/
def monochromeRectangleVertexPosition : Fin 4 → Int × Int × Int × Int
  | 0 => (-1, -1, 0, 1)
  | 1 => (-1, 1, 0, 1)
  | 2 => (1, -1, 0, 1)
  | 3 => (1, 1, 0, 1)

/-- The public functions declared in `src/headers/DMAArbiter.h`, in
declaration order. -/
def DMAArbiterPublicAPI : List String :=
  ["construct_DMAArbiter",
   "destruct_DMAArbiter",
   "DMAArbiter_readByte",
   "DMAArbiter_readWord",
   "DMAArbiter_setCdrom",
   "DMAArbiter_setCpu",
   "DMAArbiter_setGpu",
   "DMAArbiter_setMemoryInterface",
   "DMAArbiter_writeByte",
   "DMAArbiter_writeWord"]

/-! ## Helper lemmas -/

/-- `quantize5` computed in closed form: divide by 8 and cap at 31. -/
theorem quantize5_eq (c : Nat) : quantize5 c = min (c / 8) 31 := by
  unfold quantize5
  rw [Nat.shiftRight_eq_div_pow]
  norm_num
  split_ifs <;> omega

/-! ## Claim theorems -/

/-- C6: the 8-bit-to-5-bit quantization is monotonic (a larger 8-bit input
never yields a smaller 5-bit output) and idempotent: scaling a value already
in 5-bit range back to 8-bit (shift left by 3) and re-quantizing returns it
unchanged. -/
theorem quantize5_monotone_idempotent :
    (∀ a b : Nat, a ≤ b → quantize5 a ≤ quantize5 b) ∧
    (∀ v : Nat, v ≤ 31 → quantize5 (v <<< 3) = v) := by
  constructor
  · intro a b h
    rw [quantize5_eq, quantize5_eq]
    have h8 : a / 8 ≤ b / 8 := Nat.div_le_div_right h
    omega
  · intro v hv
    rw [quantize5_eq, Nat.shiftLeft_eq]
    norm_num
    omega

/-- Witness for C6 at concrete inputs. -/
theorem quantize5_monotone_idempotent_witness :
    quantize5 100 ≤ quantize5 200 ∧ quantize5 (17 <<< 3) = 17 :=
  ⟨quantize5_monotone_idempotent.1 100 200 (by decide),
   quantize5_monotone_idempotent.2 17 (by decide)⟩

/-- C9: for every channel value at most 255 entering the quantization stage,
the right-shift by 3 already lands in `[0, 31]`, so the shader's post-shift
clamp-to-`0x1F` branch is unreachable (its condition is false) and the
quantization output equals the plain shift and lies in `[0, 31]`. -/
theorem quantize5_clamp_unreachable (v : Nat) (h : v ≤ 255) :
    v >>> 3 ≤ 31 ∧ ¬(v >>> 3 > 0x1F) ∧ quantize5 v = v >>> 3 ∧ quantize5 v ≤ 31 := by
  rw [quantize5_eq, Nat.shiftRight_eq_div_pow]
  norm_num
  omega

/-- Witness for C9 at the largest admissible input. -/
theorem quantize5_clamp_unreachable_witness :
    255 >>> 3 ≤ 31 ∧ ¬(255 >>> 3 > 0x1F) ∧ quantize5 255 = 255 >>> 3 ∧ quantize5 255 ≤ 31 :=
  quantize5_clamp_unreachable 255 (by decide)

/-- C4: for each of the four semi-transparency modes and any pair of 5-bit
back/front channel values, the blended-then-saturated output lies in
`[0, 31]`, even where the raw formula leaves that range. -/
theorem blend_output_in_range (mode b f : Int)
    (_hmode : mode = 0 ∨ mode = 1 ∨ mode = 2 ∨ mode = 3)
    (_hb0 : 0 ≤ b) (_hb : b ≤ 31) (_hf0 : 0 ≤ f) (_hf : f ≤ 31) :
    0 ≤ saturate31 (blendChannel mode b f) ∧ saturate31 (blendChannel mode b f) ≤ 31 := by
  unfold saturate31
  split_ifs <;> omega

/-- Witness for C4: mode 2 at back 0, front 31, where the raw subtraction
would give −31. -/
theorem blend_output_in_range_witness :
    0 ≤ saturate31 (blendChannel 2 0 31) ∧ saturate31 (blendChannel 2 0 31) ≤ 31 :=
  blend_output_in_range 2 0 31 (by decide) (by decide) (by decide) (by decide) (by decide)

/-- C10: the GP0_A0 vertex shader and the MonochromeRectangle vertex shader
compute the same function, and both emit the four full-viewport corners with
`z = 0` and `w = 1`. -/
theorem vertex_shaders_identical :
    (∀ i : Fin 4, gp0A0VertexPosition i = monochromeRectangleVertexPosition i) ∧
    gp0A0VertexPosition 0 = (-1, -1, 0, 1) ∧
    gp0A0VertexPosition 1 = (-1, 1, 0, 1) ∧
    gp0A0VertexPosition 2 = (1, -1, 0, 1) ∧
    gp0A0VertexPosition 3 = (1, 1, 0, 1) := by
  refine ⟨?_, rfl, rfl, rfl, rfl⟩
  intro i
  fin_cases i <;> rfl

/-- C1: with mask-check enabled, a destination pixel whose mask bit is 1 is
never overwritten (in both the shaded-polygon shader and the GP0_80 transfer
shader); with mask-check disabled, the destination is always overwritten — for
the shaded-polygon shader whenever the coordinate is inside the drawing area,
for the GP0_80 shader unconditionally. -/
theorem mask_check_write_policy :
    (∀ u : DrawUniforms, ∀ x y cr cg cb : Nat, ∀ v : Pixel,
      u.checkMask = 1 → v.a = 1 → shadedPolygonFS u x y cr cg cb v = v) ∧
    (∀ u : DrawUniforms, ∀ x y cr cg cb : Nat, ∀ v : Pixel,
      u.checkMask = 0 → inDrawingArea u x y = true →
        shadedPolygonFS u x y cr cg cb v = shadedPolygonTexPixel u x y cr cg cb v) ∧
    (∀ sm : Int, ∀ t v : Pixel, v.a = 1 → gp080FS sm 1 t v = v) ∧
    (∀ sm : Int, ∀ t v : Pixel, gp080FS sm 0 t v = gp080TexPixel sm t) := by
  refine ⟨?_, ?_, ?_, ?_⟩
  · intro u x y cr cg cb v hc hv
    simp [shadedPolygonFS, hc, hv]
  · intro u x y cr cg cb v hc hin
    simp [shadedPolygonFS, hc, hin]
  · intro sm t v hv
    simp [gp080FS, hv]
  · intro sm t v
    simp [gp080FS]

/-- Witness for C1 at concrete inputs. -/
theorem mask_check_write_policy_witness :
    shadedPolygonFS ⟨0, 0, 0, 0, 1, 0, 511, 1023, 0⟩ 3 4 100 100 100 ⟨5, 6, 7, 1⟩ = ⟨5, 6, 7, 1⟩ ∧
    shadedPolygonFS ⟨0, 0, 0, 0, 0, 0, 511, 1023, 0⟩ 3 4 100 100 100 ⟨5, 6, 7, 1⟩ =
      shadedPolygonTexPixel ⟨0, 0, 0, 0, 0, 0, 511, 1023, 0⟩ 3 4 100 100 100 ⟨5, 6, 7, 1⟩ ∧
    gp080FS 0 1 ⟨7, 7, 7, 0⟩ ⟨5, 6, 7, 1⟩ = ⟨5, 6, 7, 1⟩ ∧
    gp080FS 0 0 ⟨7, 7, 7, 0⟩ ⟨5, 6, 7, 1⟩ = gp080TexPixel 0 ⟨7, 7, 7, 0⟩ :=
  ⟨mask_check_write_policy.1 ⟨0, 0, 0, 0, 1, 0, 511, 1023, 0⟩ 3 4 100 100 100 ⟨5, 6, 7, 1⟩ rfl rfl,
   mask_check_write_policy.2.1 ⟨0, 0, 0, 0, 0, 0, 511, 1023, 0⟩ 3 4 100 100 100 ⟨5, 6, 7, 1⟩
     rfl (by decide),
   mask_check_write_policy.2.2.1 0 ⟨7, 7, 7, 0⟩ ⟨5, 6, 7, 1⟩ rfl,
   mask_check_write_policy.2.2.2 0 ⟨7, 7, 7, 0⟩ ⟨5, 6, 7, 1⟩⟩

/-- C2: the drawing-area test is inclusive on all four bounds
(`left ≤ x ≤ right`, `bottom ≤ y ≤ top` in the top-left/bottom-right
convention); a pixel outside it is silently dropped (the VRAM pixel is
unchanged); with clip rect (left 10, right 20, top 100, bottom 50), the pixel
at (5, 75) is dropped and the pixel at (15, 75) is written. -/
theorem drawing_area_clip :
    (∀ u : DrawUniforms, ∀ x y : Nat,
      inDrawingArea u x y = true ↔
        (u.drawTopLeftX ≤ (x : Int) ∧ (x : Int) ≤ u.drawBottomRightX ∧
         u.drawBottomRightY ≤ (y : Int) ∧ (y : Int) ≤ u.drawTopLeftY)) ∧
    (∀ u : DrawUniforms, ∀ x y cr cg cb : Nat, ∀ v : Pixel,
      inDrawingArea u x y = false → shadedPolygonFS u x y cr cg cb v = v) ∧
    inDrawingArea ⟨0, 0, 0, 0, 0, 10, 100, 20, 50⟩ 5 75 = false ∧
    inDrawingArea ⟨0, 0, 0, 0, 0, 10, 100, 20, 50⟩ 15 75 = true ∧
    (∀ cr cg cb : Nat, ∀ v : Pixel,
      shadedPolygonFS ⟨0, 0, 0, 0, 0, 10, 100, 20, 50⟩ 5 75 cr cg cb v = v) ∧
    (∀ cr cg cb : Nat, ∀ v : Pixel,
      shadedPolygonFS ⟨0, 0, 0, 0, 0, 10, 100, 20, 50⟩ 15 75 cr cg cb v =
        shadedPolygonTexPixel ⟨0, 0, 0, 0, 0, 10, 100, 20, 50⟩ 15 75 cr cg cb v) := by
  refine ⟨?_, ?_, by decide, by decide, ?_, ?_⟩
  · intro u x y
    simp only [inDrawingArea, Bool.and_eq_true, decide_eq_true_eq, ge_iff_le]
    tauto
  · intro u x y cr cg cb v h
    simp [shadedPolygonFS, h]
  · intro cr cg cb v
    simp [shadedPolygonFS, inDrawingArea]
  · intro cr cg cb v
    simp [shadedPolygonFS, inDrawingArea]

/-- Witness for C2 at concrete inputs. -/
theorem drawing_area_clip_witness :
    (inDrawingArea ⟨0, 0, 0, 0, 0, 10, 100, 20, 50⟩ 15 75 = true ↔
      ((10 : Int) ≤ (15 : Nat) ∧ ((15 : Nat) : Int) ≤ 20 ∧
       (50 : Int) ≤ (75 : Nat) ∧ ((75 : Nat) : Int) ≤ 100)) ∧
    shadedPolygonFS ⟨0, 0, 0, 0, 0, 10, 100, 20, 50⟩ 0 0 99 99 99 ⟨1, 2, 3, 0⟩ = ⟨1, 2, 3, 0⟩ :=
  ⟨drawing_area_clip.1 ⟨0, 0, 0, 0, 0, 10, 100, 20, 50⟩ 15 75,
   drawing_area_clip.2.1 ⟨0, 0, 0, 0, 0, 10, 100, 20, 50⟩ 0 0 99 99 99 ⟨1, 2, 3, 0⟩ (by decide)⟩

/-- C3 counterexample: blend mode 0 is not the average of back and front.
With dither off, semi-transparency on in mode 0, back pixel channels 1 and
front colour 8 (which quantizes to 5-bit value 1), the shader writes channel
value `1/2 + 1/2 = 0`, whereas the average of back 1 and front 1 is
`(1 + 1) / 2 = 1`. -/
theorem blend_mode0_not_average :
    quantize5 8 = 1 ∧
    (shadedPolygonFS ⟨0, 1, 0, 0, 0, 0, 511, 1023, 0⟩ 0 0 8 8 8 ⟨1, 1, 1, 0⟩).r = 0 ∧
    ((1 : Int) + 1) / 2 = 1 ∧
    ((shadedPolygonFS ⟨0, 1, 0, 0, 0, 0, 511, 1023, 0⟩ 0 0 8 8 8 ⟨1, 1, 1, 0⟩).r : Int) ≠
      ((1 : Int) + 1) / 2 := by
  refine ⟨by decide, by decide, by decide, by decide⟩

/-- C3 (amended): with semi-transparency enabled and dither off, the written
pixel's channels are computed from the back (VRAM) channel `B` and the
quantized front channel `F` by mode 0: `B/2 + F/2` (each operand halved by
truncating integer division — one less than the rounded-down average exactly
when `B` and `F` are both odd); mode 1: `B + F`; mode 2: `B − F`;
mode 3: `B + F/4` — each channel independently, then clamped to `[0, 31]`. -/
theorem blend_mode_formulas (u : DrawUniforms) (x y cr cg cb : Nat) (v : Pixel)
    (hst : u.semiTransparencyEnabled = 1) (hd : u.dither ≠ 1) :
    (u.semiTransparencyMode = 0 →
      shadedPolygonTexPixel u x y cr cg cb v =
        ⟨(saturate31 (Int.tdiv v.r 2 + Int.tdiv (quantize5 cr) 2)).toNat,
         (saturate31 (Int.tdiv v.g 2 + Int.tdiv (quantize5 cg) 2)).toNat,
         (saturate31 (Int.tdiv v.b 2 + Int.tdiv (quantize5 cb) 2)).toNat,
         if u.setMask = 1 then 1 else 0⟩) ∧
    (u.semiTransparencyMode = 1 →
      shadedPolygonTexPixel u x y cr cg cb v =
        ⟨(saturate31 ((v.r : Int) + (quantize5 cr : Int))).toNat,
         (saturate31 ((v.g : Int) + (quantize5 cg : Int))).toNat,
         (saturate31 ((v.b : Int) + (quantize5 cb : Int))).toNat,
         if u.setMask = 1 then 1 else 0⟩) ∧
    (u.semiTransparencyMode = 2 →
      shadedPolygonTexPixel u x y cr cg cb v =
        ⟨(saturate31 ((v.r : Int) - (quantize5 cr : Int))).toNat,
         (saturate31 ((v.g : Int) - (quantize5 cg : Int))).toNat,
         (saturate31 ((v.b : Int) - (quantize5 cb : Int))).toNat,
         if u.setMask = 1 then 1 else 0⟩) ∧
    (u.semiTransparencyMode = 3 →
      shadedPolygonTexPixel u x y cr cg cb v =
        ⟨(saturate31 ((v.r : Int) + Int.tdiv (quantize5 cr) 4)).toNat,
         (saturate31 ((v.g : Int) + Int.tdiv (quantize5 cg) 4)).toNat,
         (saturate31 ((v.b : Int) + Int.tdiv (quantize5 cb) 4)).toNat,
         if u.setMask = 1 then 1 else 0⟩) := by
  refine ⟨?_, ?_, ?_, ?_⟩ <;> intro hm <;>
    simp [shadedPolygonTexPixel, blendChannel, hst, hd, hm]

/-- Witness for C3 (amended) at concrete inputs: back (1, 2, 3), front colour
8 (quantized to 1), mode 0 gives (0, 1, 1). -/
theorem blend_mode_formulas_witness :
    shadedPolygonTexPixel ⟨0, 1, 0, 0, 0, 0, 511, 1023, 0⟩ 0 0 8 8 8 ⟨1, 2, 3, 0⟩ =
      ⟨0, 1, 1, 0⟩ :=
  (((blend_mode_formulas ⟨0, 1, 0, 0, 0, 0, 511, 1023, 0⟩ 0 0 8 8 8 ⟨1, 2, 3, 0⟩
      rfl (by decide)).1 rfl).trans (by decide))

/-- C5: with dithering enabled, the shader adds the signed dither-matrix entry
at `(x % 4, (511 − y) % 4)` to each of the three channels before quantization,
clamping each to `[0, 255]`; at pixel (0, 0) with source colour
(130, 130, 130) the offset is +3, the pre-quantization value 133, and the
written 5-bit value `133 >> 3 = 16`. -/
theorem dither_before_quantization :
    (∀ x y c : Nat,
      ditherChannel x y c = (clamp255 ((c : Int) + ditherArray (x % 4) ((511 - y) % 4))).toNat ∧
      0 ≤ clamp255 ((c : Int) + ditherOffset x y) ∧
      clamp255 ((c : Int) + ditherOffset x y) ≤ 255) ∧
    (∀ u : DrawUniforms, ∀ x y cr cg cb : Nat, ∀ v : Pixel,
      u.dither = 1 → u.semiTransparencyEnabled ≠ 1 →
        (shadedPolygonTexPixel u x y cr cg cb v).r = quantize5 (ditherChannel x y cr) ∧
        (shadedPolygonTexPixel u x y cr cg cb v).g = quantize5 (ditherChannel x y cg) ∧
        (shadedPolygonTexPixel u x y cr cg cb v).b = quantize5 (ditherChannel x y cb)) ∧
    ditherOffset 0 0 = 3 ∧
    ditherChannel 0 0 130 = 133 ∧
    quantize5 133 = 16 ∧
    shadedPolygonFS ⟨1, 0, 0, 0, 0, 0, 511, 1023, 0⟩ 0 0 130 130 130 ⟨0, 0, 0, 0⟩ =
      ⟨16, 16, 16, 0⟩ := by
  refine ⟨?_, ?_, by decide, by decide, by decide, by decide⟩
  · intro x y c
    refine ⟨rfl, ?_, ?_⟩ <;> · unfold clamp255; split_ifs <;> omega
  · intro u x y cr cg cb v hd hs
    simp [shadedPolygonTexPixel, hd, hs]

/-- Witness for C5 at concrete inputs. -/
theorem dither_before_quantization_witness :
    (shadedPolygonTexPixel ⟨1, 0, 0, 0, 0, 0, 511, 1023, 0⟩ 0 0 130 131 132 ⟨0, 0, 0, 0⟩).r =
      quantize5 (ditherChannel 0 0 130) ∧
    (shadedPolygonTexPixel ⟨1, 0, 0, 0, 0, 0, 511, 1023, 0⟩ 0 0 130 131 132 ⟨0, 0, 0, 0⟩).g =
      quantize5 (ditherChannel 0 0 131) ∧
    (shadedPolygonTexPixel ⟨1, 0, 0, 0, 0, 0, 511, 1023, 0⟩ 0 0 130 131 132 ⟨0, 0, 0, 0⟩).b =
      quantize5 (ditherChannel 0 0 132) :=
  dither_before_quantization.2.1 ⟨1, 0, 0, 0, 0, 0, 511, 1023, 0⟩ 0 0 130 131 132 ⟨0, 0, 0, 0⟩
    rfl (by decide)

/-- C7 counterexample: the GP0_80 transfer shader applies no drawing-area
test.  At fragment coordinate (5, 75), outside the clip rect
(left 10, right 20, top 100, bottom 50), the transfer with mask-check off
still overwrites the VRAM pixel. -/
theorem gp080_writes_outside_clip :
    inDrawingArea ⟨0, 0, 0, 0, 0, 10, 100, 20, 50⟩ 5 75 = false ∧
    gp080FS 0 0 ⟨7, 7, 7, 0⟩ ⟨1, 2, 3, 0⟩ = ⟨7, 7, 7, 0⟩ ∧
    (⟨7, 7, 7, 0⟩ : Pixel) ≠ ⟨1, 2, 3, 0⟩ := by
  refine ⟨by decide, by decide, by decide⟩

/-- C7 (amended): the GP0_80 VRAM transfer shader applies the same
mask discipline as primitive drawing — the transferred pixel (with the mask
bit forced when set-mask is on, no dithering and no blending applied) is
written iff mask-check is off or the existing VRAM mask bit differs from 1 —
but performs no drawing-area clip test. -/
theorem gp080_mask_discipline (sm cm : Int) (t v : Pixel) :
    (cm = 1 → v.a = 1 → gp080FS sm cm t v = v) ∧
    (cm = 1 → v.a ≠ 1 → gp080FS sm cm t v = gp080TexPixel sm t) ∧
    (cm ≠ 1 → gp080FS sm cm t v = gp080TexPixel sm t) := by
  refine ⟨?_, ?_, ?_⟩ <;> · intros; simp_all [gp080FS]

/-- Witness for C7 (amended) at concrete inputs. -/
theorem gp080_mask_discipline_witness :
    gp080FS 1 1 ⟨7, 7, 7, 0⟩ ⟨5, 6, 7, 1⟩ = ⟨5, 6, 7, 1⟩ ∧
    gp080FS 1 1 ⟨7, 7, 7, 0⟩ ⟨5, 6, 7, 0⟩ = gp080TexPixel 1 ⟨7, 7, 7, 0⟩ ∧
    gp080FS 1 0 ⟨7, 7, 7, 0⟩ ⟨5, 6, 7, 1⟩ = gp080TexPixel 1 ⟨7, 7, 7, 0⟩ :=
  ⟨(gp080_mask_discipline 1 1 ⟨7, 7, 7, 0⟩ ⟨5, 6, 7, 1⟩).1 rfl rfl,
   (gp080_mask_discipline 1 1 ⟨7, 7, 7, 0⟩ ⟨5, 6, 7, 0⟩).2.1 rfl (by decide),
   (gp080_mask_discipline 1 0 ⟨7, 7, 7, 0⟩ ⟨5, 6, 7, 1⟩).2.2 (by decide)⟩

/-- C8 counterexample: no function whose name contains "step" appears among
the public functions declared in `DMAArbiter.h`. -/
theorem dmaArbiter_no_step_operation :
    (DMAArbiterPublicAPI.all fun f =>
      !(decide ("step".toList <:+: f.toList.map Char.toLower))) = true := by
  decide

/-- C8 (amended): the DMA Arbiter's public contract consists of a
constructor, a destructor, `readByte`/`readWord`, `writeByte`/`writeWord`,
and setters wiring the CD-ROM, CPU, GPU and memory-interface collaborators;
no `step` operation is part of the public interface. -/
theorem dmaArbiter_public_contract :
    "DMAArbiter_readByte" ∈ DMAArbiterPublicAPI ∧
    "DMAArbiter_readWord" ∈ DMAArbiterPublicAPI ∧
    "DMAArbiter_writeByte" ∈ DMAArbiterPublicAPI ∧
    "DMAArbiter_writeWord" ∈ DMAArbiterPublicAPI ∧
    "construct_DMAArbiter" ∈ DMAArbiterPublicAPI ∧
    "destruct_DMAArbiter" ∈ DMAArbiterPublicAPI ∧
    "DMAArbiter_setCdrom" ∈ DMAArbiterPublicAPI ∧
    "DMAArbiter_setCpu" ∈ DMAArbiterPublicAPI ∧
    "DMAArbiter_setGpu" ∈ DMAArbiterPublicAPI ∧
    "DMAArbiter_setMemoryInterface" ∈ DMAArbiterPublicAPI ∧
    "DMAArbiter_step" ∉ DMAArbiterPublicAPI ∧
    DMAArbiterPublicAPI.length = 10 := by
  refine ⟨?_, ?_, ?_, ?_, ?_, ?_, ?_, ?_, ?_, ?_, ?_, rfl⟩ <;> decide

end PhilPSX
